import Mathlib

/-!
Verification of flake8-docstrings-complete against its specification.

The development shallowly embeds the docstring section parser
(`docstring.py`), the arguments / raises / attributes checkers (`args.py`,
`raises.py`, `attrs.py`) and the orchestrating visitor of `__init__.py`.
Strings are modelled as `List Char` at the ASCII level; the configured
regular-expression patterns of the plugin are modelled as abstract boolean
predicates where noted.
-/

namespace FDC

/-- Characters matched by the Python regular-expression class \s at the ASCII
level (the r"\s*" fragments of the patterns in docstring.py). -/
def isPySpace (c : Char) : Bool :=
  (c == ' ') || (c == '\t') || (c == '\n') || (c == '\r') || (c == '\x0b') || (c == '\x0c')

/-- Characters matched by the Python regular-expression class \w at the ASCII
level (the (\w+) groups of _SECTION_NAME_PATTERN and _SUB_SECTION_PATTERN). -/
def isWordChar (c : Char) : Bool :=
  c.isAlphanum || (c == '_')

/-- Helper for `splitLines`: accumulate the current line until a \n, \r\n or
\r boundary; a boundary at the end of the input produces no further line,
matching Python str.splitlines. -/
def splitGo (acc : List Char) : List Char → List (List Char)
  | [] => [acc.reverse]
  | '\r' :: '\n' :: rest => acc.reverse :: (if rest.isEmpty then [] else splitGo [] rest)
  | '\n' :: rest => acc.reverse :: (if rest.isEmpty then [] else splitGo [] rest)
  | '\r' :: rest => acc.reverse :: (if rest.isEmpty then [] else splitGo [] rest)
  | c :: rest => splitGo (c :: acc) rest

/-- value.splitlines() in docstring.parse, modelled for the \n, \r and \r\n
line boundaries (the less common Unicode boundaries are outside the modelled
character set); the empty string yields no lines. -/
def splitLines (s : List Char) : List (List Char) :=
  match s with
  | [] => []
  | _ => splitGo [] s

/-- re.match of _SECTION_NAME_PATTERN (r"\s*(\w+):") against a line, returning
the captured word.  The classes \s and \w are disjoint and the character after
the word must be a colon, so greedy maximal scanning is exact. -/
def sectionNameMatch (line : List Char) : Option (List Char) :=
  let afterSpace := line.dropWhile isPySpace
  let word := afterSpace.takeWhile isWordChar
  let afterWord := afterSpace.dropWhile isWordChar
  if word ≠ [] ∧ afterWord.head? = some ':' then some word else none

/-- Search used by `subSectionMatch` for a ")" immediately followed by ":"
that can close the optional ( \(.*\)) group; the regular-expression dot does
not match a newline, so the search stops there. -/
def findParenClose : List Char → Bool
  | ')' :: ':' :: _ => true
  | '\n' :: _ => false
  | _ :: rest => findParenClose rest
  | [] => false

/-- re.match of _SUB_SECTION_PATTERN (r"\s*(\w+)( \(.*\))?:") against a line,
returning the captured word.  After the word either a colon follows directly
(empty optional group), or a space and an opening parenthesis start the
annotation group, which must be closed by ")" followed by ":". -/
def subSectionMatch (line : List Char) : Option (List Char) :=
  let afterSpace := line.dropWhile isPySpace
  let word := afterSpace.takeWhile isWordChar
  let afterWord := afterSpace.dropWhile isWordChar
  if word = [] then none
  else
    match afterWord with
    | ':' :: _ => some word
    | ' ' :: '(' :: rest => if findParenClose rest then some word else none
    | _ => none

/-- a line consisting solely of whitespace: both the line.strip() test used to
find a section start and _SECTION_END_PATTERN (r"\s*$") used to end a section
in docstring.py recognise exactly these lines. -/
def isBlank (line : List Char) : Bool := line.all isPySpace

/-- the _Section named tuple of docstring.py. -/
structure DSection where
  name : Option (List Char)
  subs : List (List Char)
deriving DecidableEq

/-- Line-by-line scan implementing the _get_sections iterator of docstring.py.
The state is `none` between sections and `some (name, subs)` inside one (subs
accumulated in reverse).  Outside a section, blank lines are skipped and a
non-blank line starts a section named by _SECTION_NAME_PATTERN (the header
line itself is not scanned for sub-sections, since the source consumes it
before building the takewhile over the remaining lines); inside a section,
lines feed _SUB_SECTION_PATTERN until the blank terminator, which the
source's takewhile also consumes. -/
def sectionsGo : Option (Option (List Char) × List (List Char)) → List (List Char) → List DSection
  | none, [] => []
  | some (nm, subs), [] => [⟨nm, subs.reverse⟩]
  | none, l :: ls =>
      if isBlank l then sectionsGo none ls
      else sectionsGo (some (sectionNameMatch l, [])) ls
  | some (nm, subs), l :: ls =>
      if isBlank l then ⟨nm, subs.reverse⟩ :: sectionsGo none ls
      else
        sectionsGo
          (some (nm, (match subSectionMatch l with
            | some w => w :: subs
            | none => subs))) ls

/-- the _get_sections generator of docstring.py applied to a list of lines. -/
def getSections (lines : List (List Char)) : List DSection := sectionsGo none lines

/-- name.lower() at the ASCII level. -/
def lowerStr (s : List Char) : List Char := s.map Char.toLower

/-- the "args" synonym set of _SECTION_NAMES in docstring.py. -/
def ARGS_NAMES : List (List Char) := ["args".toList, "arguments".toList, "parameters".toList]

/-- the "attrs" synonym set of _SECTION_NAMES in docstring.py. -/
def ATTRS_NAMES : List (List Char) := ["attributes".toList, "attrs".toList]

/-- the "returns" synonym set of _SECTION_NAMES in docstring.py. -/
def RETURNS_NAMES : List (List Char) := ["return".toList, "returns".toList]

/-- the "yields" synonym set of _SECTION_NAMES in docstring.py. -/
def YIELDS_NAMES : List (List Char) := ["yield".toList, "yields".toList]

/-- the "raises" synonym set of _SECTION_NAMES in docstring.py. -/
def RAISES_NAMES : List (List Char) := ["raises".toList, "raise".toList]

/-- whether a section's name matches one of the synonym spellings
case-insensitively (the filter of _get_section_by_name and
_get_all_section_names_by_name). -/
def sectionMatches (names : List (List Char)) (s : DSection) : Bool :=
  match s.name with
  | some n => names.contains (lowerStr n)
  | none => false

/-- _get_section_by_name of docstring.py: the first section whose name
matches the synonym set. -/
def getSectionByName (names : List (List Char)) (sections : List DSection) : Option DSection :=
  sections.find? (sectionMatches names)

/-- the per-section selector of _get_all_section_names_by_name: the literal
header text when the name matches the synonym set. -/
def sectionNameIfMatch (names : List (List Char)) (s : DSection) : Option (List Char) :=
  match s.name with
  | some n => if names.contains (lowerStr n) then some n else none
  | none => none

/-- _get_all_section_names_by_name of docstring.py. -/
def getAllSectionNamesByName (names : List (List Char)) (sections : List DSection) :
    List (List Char) :=
  sections.filterMap (sectionNameIfMatch names)

/-- the Docstring named tuple of docstring.py (lines 24-48).  Note the fields:
there is no returns or yields field, only returns_sections and
yields_sections. -/
structure Docstring where
  args : Option (List (List Char)) := none
  args_sections : List (List Char) := []
  attrs : Option (List (List Char)) := none
  attrs_sections : List (List Char) := []
  returns_sections : List (List Char) := []
  yields_sections : List (List Char) := []
  raises : Option (List (List Char)) := none
  raises_sections : List (List Char) := []
deriving DecidableEq

/-- docstring.parse of docstring.py. -/
def parseCh (value : List Char) : Docstring :=
  let sections := getSections (splitLines value)
  { args := (getSectionByName ARGS_NAMES sections).map (fun s => s.subs)
    args_sections := getAllSectionNamesByName ARGS_NAMES sections
    attrs := (getSectionByName ATTRS_NAMES sections).map (fun s => s.subs)
    attrs_sections := getAllSectionNamesByName ATTRS_NAMES sections
    returns_sections := getAllSectionNamesByName RETURNS_NAMES sections
    yields_sections := getAllSectionNamesByName YIELDS_NAMES sections
    raises := (getSectionByName RAISES_NAMES sections).map (fun s => s.subs)
    raises_sections := getAllSectionNamesByName RAISES_NAMES sections }

/-!
Abstract-syntax-tree model: the fragment of the Python ast node vocabulary
the plugin inspects.  Every node keeps its lineno and col_offset.
-/

/-- an ast.arg node: one declared parameter. -/
structure Arg where
  arg : List Char
  lineno : Nat
  col_offset : Nat
deriving DecidableEq

/-- an ast.arguments node (defaults and annotations carry no information the
plugin reads and are not modelled). -/
structure Arguments where
  posonlyargs : List Arg := []
  args : List Arg := []
  vararg : Option Arg := none
  kwonlyargs : List Arg := []
  kwarg : Option Arg := none
deriving DecidableEq

/-- the expression fragment the plugin inspects: names, attribute accesses,
calls, constants and yield expressions; `otherE` stands for any other
expression kind, keeping its child expressions so that generic_visit
recursion is preserved. -/
inductive PExpr where
  | nameE (id : List Char) (lineno col_offset : Nat)
  | attrE (value : PExpr) (attrName : List Char) (lineno col_offset : Nat)
  | callE (func : PExpr) (callArgs : List PExpr) (lineno col_offset : Nat)
  | constStrE (s : List Char) (lineno col_offset : Nat)
  | constOtherE (lineno col_offset : Nat)
  | yieldE (value : Option PExpr) (lineno col_offset : Nat)
  | yieldFromE (value : PExpr) (lineno col_offset : Nat)
  | otherE (children : List PExpr) (lineno col_offset : Nat)

/-- the statement fragment the plugin inspects; `otherStmt` stands for any
other statement kind (if, for, while, try, with, ...), keeping its child
statements and expressions so that generic_visit recursion is preserved.
The isAsync flag folds ast.AsyncFunctionDef into functionDef, since every
visitor maps both node kinds to the same method. -/
inductive Stmt where
  | functionDef (name : List Char) (argsSpec : Arguments) (body : List Stmt)
      (decorators : List PExpr) (lineno col_offset : Nat) (isAsync : Bool)
  | classDef (name : List Char) (body : List Stmt) (decorators : List PExpr)
      (lineno col_offset : Nat)
  | ret (value : Option PExpr) (lineno col_offset : Nat)
  | raiseStmt (exc : Option PExpr) (lineno col_offset : Nat)
  | assign (targets : List PExpr) (value : PExpr) (lineno col_offset : Nat)
  | annAssign (target : PExpr) (value : Option PExpr) (lineno col_offset : Nat)
  | augAssign (target : PExpr) (value : PExpr) (lineno col_offset : Nat)
  | exprStmt (value : PExpr) (lineno col_offset : Nat)
  | otherStmt (body : List Stmt) (exprs : List PExpr) (lineno col_offset : Nat)

/-- the types_.Node named tuple (also defined as Node in __init__.py). -/
structure Node where
  name : List Char
  lineno : Nat
  col_offset : Nat
deriving DecidableEq

/-- the Problem named tuple of types_.py / __init__.py. -/
structure Problem where
  lineno : Nat
  col_offset : Nat
  msg : String
deriving DecidableEq

/-- the FileType enumeration of types_.py / __init__.py. -/
inductive FileType where
  | test
  | fixture
  | default
deriving DecidableEq

/-!
Message constants.  ERROR_CODE_PREFIX and MORE_INFO_BASE live in the
constants.py module, which is absent from src/; their values are pinned by
the identical definitions at the top of the __init__.py under src/.
-/

/-- the MORE_INFO_BASE suffix builder shared by every message. -/
def MORE_INFO (code : String) : String :=
  ", more information: https://github.com/jdkandersson/flake8-docstrings-complete#fix-" ++ code

/-- DCO010 (DOCSTR_MISSING_MSG in __init__.py). -/
def DOCSTR_MISSING_MSG : String :=
  "DCO010 docstring should be defined for a function/ method/ class" ++ MORE_INFO ("dco010")

/-- DCO020 (ARGS_SECTION_NOT_IN_DOCSTR_MSG in args.py and __init__.py). -/
def ARGS_SECTION_NOT_IN_DOCSTR_MSG : String :=
  "DCO020 a function/ method with arguments should have the arguments section in the docstring"
    ++ MORE_INFO ("dco020")

/-- DCO021 (ARGS_SECTION_IN_DOCSTR_MSG in args.py and __init__.py). -/
def ARGS_SECTION_IN_DOCSTR_MSG : String :=
  "DCO021 a function/ method without arguments should not have the arguments section in the "
    ++ "docstring" ++ MORE_INFO ("dco021")

/-- ",".join over header spellings, used by the multiple-section messages. -/
def joinComma (l : List (List Char)) : String :=
  String.mk (List.intercalate (",".toList) l)

/-- DCO022 (MULT_ARGS_SECTIONS_IN_DOCSTR_MSG with its %s filled in). -/
def multArgsMsg (sections : List (List Char)) : String :=
  "DCO022 a docstring should only contain a single arguments section, found "
    ++ joinComma sections ++ MORE_INFO ("dco022")

/-- DCO023 (ARG_NOT_IN_DOCSTR_MSG with its %s filled in). -/
def argNotInDocstrMsg (name : List Char) : String :=
  "DCO023 \"" ++ String.mk name ++ "\" argument should be described in the docstring"
    ++ MORE_INFO ("dco023")

/-- DCO024 (ARG_IN_DOCSTR_MSG with its %s filled in). -/
def argInDocstrMsg (name : List Char) : String :=
  "DCO024 \"" ++ String.mk name ++ "\" argument should not be described in the docstring"
    ++ MORE_INFO ("dco024")

/-- DCO030 (RETURNS_SECTION_NOT_IN_DOCSTR_MSG in __init__.py). -/
def RETURNS_SECTION_NOT_IN_DOCSTR_MSG : String :=
  "DCO030 function/ method that returns a value should have the returns section in the docstring"
    ++ MORE_INFO ("dco030")

/-- DCO031 (RETURNS_SECTION_IN_DOCSTR_MSG in __init__.py). -/
def RETURNS_SECTION_IN_DOCSTR_MSG : String :=
  "DCO031 function/ method that does not return a value should not have the returns section in "
    ++ "the docstring" ++ MORE_INFO ("dco031")

/-- DCO032 (MULT_RETURNS_SECTIONS_IN_DOCSTR_MSG with its %s filled in). -/
def multReturnsMsg (sections : List (List Char)) : String :=
  "DCO032 a docstring should only contain a single returns section, found "
    ++ joinComma sections ++ MORE_INFO ("dco032")

/-- DCO040 (YIELDS_SECTION_NOT_IN_DOCSTR_MSG in __init__.py). -/
def YIELDS_SECTION_NOT_IN_DOCSTR_MSG : String :=
  "DCO040 function/ method that yields a value should have the yields section in the docstring"
    ++ MORE_INFO ("dco040")

/-- DCO041 (YIELDS_SECTION_IN_DOCSTR_MSG in __init__.py). -/
def YIELDS_SECTION_IN_DOCSTR_MSG : String :=
  "DCO041 function/ method that does not yield a value should not have the yields section in "
    ++ "the docstring" ++ MORE_INFO ("dco041")

/-- DCO042 (MULT_YIELDS_SECTIONS_IN_DOCSTR_MSG with its %s filled in). -/
def multYieldsMsg (sections : List (List Char)) : String :=
  "DCO042 a docstring should only contain a single yields section, found "
    ++ joinComma sections ++ MORE_INFO ("dco042")

/-- DCO050 (RAISES_SECTION_NOT_IN_DOCSTR_MSG in raises.py and __init__.py). -/
def RAISES_SECTION_NOT_IN_DOCSTR_MSG : String :=
  "DCO050 a function/ method that raises an exception should have the raises section in the "
    ++ "docstring" ++ MORE_INFO ("dco050")

/-- DCO051 (RAISES_SECTION_IN_DOCSTR_MSG in raises.py and __init__.py). -/
def RAISES_SECTION_IN_DOCSTR_MSG : String :=
  "DCO051 a function/ method that does not raise an exception should not have the raises "
    ++ "section in the docstring" ++ MORE_INFO ("dco051")

/-- DCO052 (MULT_RAISES_SECTIONS_IN_DOCSTR_MSG with its %s filled in). -/
def multRaisesMsg (sections : List (List Char)) : String :=
  "DCO052 a docstring should only contain a single raises section, found "
    ++ joinComma sections ++ MORE_INFO ("dco052")

/-- DCO053 (EXC_NOT_IN_DOCSTR_MSG with its %s filled in). -/
def excNotInDocstrMsg (name : List Char) : String :=
  "DCO053 \"" ++ String.mk name ++ "\" exception should be described in the docstring"
    ++ MORE_INFO ("dco053")

/-- DCO054 (EXC_IN_DOCSTR_MSG with its %s filled in). -/
def excInDocstrMsg (name : List Char) : String :=
  "DCO054 \"" ++ String.mk name ++ "\" exception should not be described in the docstring"
    ++ MORE_INFO ("dco054")

/-- DCO055 (RE_RAISE_NO_EXC_IN_DOCSTR_MSG in raises.py and __init__.py). -/
def RE_RAISE_NO_EXC_IN_DOCSTR_MSG : String :=
  "DCO055 a function/ method that re-raises exceptions should describe at least one exception "
    ++ "in the raises section of the docstring" ++ MORE_INFO ("dco055")

/-- DCO060 (ATTRS_SECTION_NOT_IN_DOCSTR_MSG in attrs.py and __init__.py). -/
def ATTRS_SECTION_NOT_IN_DOCSTR_MSG : String :=
  "DCO060 a class with attributes should have the attributes section in the docstring"
    ++ MORE_INFO ("dco060")

/-- DCO061 (ATTRS_SECTION_IN_DOCSTR_MSG in attrs.py and __init__.py). -/
def ATTRS_SECTION_IN_DOCSTR_MSG : String :=
  "DCO061 a function/ method without attributes should not have the attributes section in the "
    ++ "docstring" ++ MORE_INFO ("dco061")

/-- DCO062 as built in attrs.py (suffix #fix-dco062). -/
def multAttrsMsg (sections : List (List Char)) : String :=
  "DCO062 a docstring should only contain a single attributes section, found "
    ++ joinComma sections ++ MORE_INFO ("dco062")

/-- DCO062 as built in __init__.py lines 131-135, whose f-string closes with
MULT_ARGS_SECTIONS_IN_DOCSTR_CODE.lower(), so the suffix reads #fix-dco022. -/
def initMultAttrsMsg (sections : List (List Char)) : String :=
  "DCO062 a docstring should only contain a single attributes section, found "
    ++ joinComma sections ++ MORE_INFO ("dco022")

/-- DCO063 as built in attrs.py ("attribute/ property"). -/
def attrNotInDocstrMsg (name : List Char) : String :=
  "DCO063 \"" ++ String.mk name ++ "\" attribute/ property should be described in the docstring"
    ++ MORE_INFO ("dco063")

/-- DCO063 as built in __init__.py lines 136-140 ("attribute"). -/
def initAttrNotInDocstrMsg (name : List Char) : String :=
  "DCO063 \"" ++ String.mk name ++ "\" attribute should be described in the docstring"
    ++ MORE_INFO ("dco063")

/-- DCO064 (ATTR_IN_DOCSTR_MSG with its %s filled in, same in both files). -/
def attrInDocstrMsg (name : List Char) : String :=
  "DCO064 \"" ++ String.mk name ++ "\" attribute should not be described in the docstring"
    ++ MORE_INFO ("dco064")

/-- DCO065 (DUPLICATE_ATTR_MSG in attrs.py with its %s filled in). -/
def duplicateAttrMsg (name : List Char) : String :=
  "DCO065 \"" ++ String.mk name ++ "\" attribute documented multiple times" ++ MORE_INFO ("dco065")

/-!
Shared helpers for the Python set and sorted operations of the checkers.
-/

/-- lexicographic strict order on strings by code point, as Python compares
strings when sorted() is applied to documented names. -/
def strLt : List Char → List Char → Bool
  | [], [] => false
  | [], _ :: _ => true
  | _ :: _, [] => false
  | a :: as2, b :: bs2 => if a = b then strLt as2 bs2 else decide (a < b)

/-- insertion into a lexicographically sorted list. -/
def insertSorted (x : List Char) : List (List Char) → List (List Char)
  | [] => [x]
  | y :: ys => if strLt x y then x :: y :: ys else y :: insertSorted x ys

/-- sorted() over strings. -/
def sortStrs (l : List (List Char)) : List (List Char) :=
  l.foldr insertSorted []

/-- deduplication keeping first occurrences: the element enumeration a Python
set or collections.Counter built from a list performs (insertion order). -/
def dedupStrs : List (List Char) → List (List Char)
  | [] => []
  | x :: xs => x :: (dedupStrs xs).filter (fun y => y ≠ x)

/-!
Embedding of args.py (identical logic to _iter_args and _check_args of the
__init__.py under src/; both files are cited where they differ elsewhere).
-/

/-- CLASS_SELF_CLS in __init__.py, SKIP_ARGS in args.py. -/
def CLASS_SELF_CLS : List (List Char) := ["self".toList, "cls".toList]

/-- UNUSED_ARGS_PREFIX in the source (the leading-underscore marker). -/
def UNUSED_ARGS_MARKER : List Char := "_".toList

/-- _iter_args of args.py / __init__.py: positional then positional-only
parameters with the names in CLASS_SELF_CLS removed unconditionally, then
keyword-only parameters, vararg and kwarg. -/
def iterArgs (a : Arguments) : List Arg :=
  (a.args.filter (fun x => !(CLASS_SELF_CLS.contains x.arg)))
    ++ (a.posonlyargs.filter (fun x => !(CLASS_SELF_CLS.contains x.arg)))
    ++ a.kwonlyargs
    ++ a.vararg.toList
    ++ a.kwarg.toList

/-- args.check of args.py (textually identical to _check_args of the
__init__.py under src/).  dl and dc are the docstring node's position. -/
def checkArgs (d : Docstring) (dl dc : Nat) (a : Arguments) : List Problem :=
  let all_args := iterArgs a
  let all_used_args := all_args.filter (fun x => !(UNUSED_ARGS_MARKER.isPrefixOf x.arg))
  let p1 :=
    if all_used_args ≠ [] ∧ d.args = none then
      [⟨dl, dc, ARGS_SECTION_NOT_IN_DOCSTR_MSG⟩] else []
  let p2 :=
    if all_args = [] ∧ d.args ≠ none then [⟨dl, dc, ARGS_SECTION_IN_DOCSTR_MSG⟩]
    else
      match d.args with
      | some docArgs =>
        if all_args ≠ [] then
          let pMult :=
            if d.args_sections.length > 1 then [⟨dl, dc, multArgsMsg d.args_sections⟩] else []
          let pMissing :=
            (all_used_args.filter (fun x => !(docArgs.contains x.arg))).map
              (fun x => (⟨x.lineno, x.col_offset, argNotInDocstrMsg x.arg⟩ : Problem))
          let func_args := all_args.map (fun x => x.arg)
          let pUnexpected :=
            (sortStrs (dedupStrs (docArgs.filter (fun s => !(func_args.contains s))))).map
              (fun s => (⟨dl, dc, argInDocstrMsg s⟩ : Problem))
          let pEmpty :=
            if all_used_args = [] ∧ docArgs.length = 0 then
              [⟨dl, dc, ARGS_SECTION_IN_DOCSTR_MSG⟩] else []
          pMult ++ pMissing ++ pUnexpected ++ pEmpty
        else []
      | none => []
  p1 ++ p2

/-!
Embedding of raises.py (textually identical to _get_exc_node and
_check_raises of the __init__.py under src/).
-/

/-- a recorded raise statement: the raised expression, if any, and the
statement's position. -/
structure RaiseNode where
  exc : Option PExpr
  lineno : Nat
  col_offset : Nat

/-- _get_exc_node of raises.py / __init__.py: the name and position of the
raised error type; none models both a bare re-raise and an unrecognised
raised expression. -/
def getExcNode (exc : Option PExpr) : Option Node :=
  match exc with
  | some (.nameE id l c) => some ⟨id, l, c⟩
  | some (.attrE _ a l c) => some ⟨a, l, c⟩
  | some (.callE f _ _ _) =>
    match f with
    | .nameE id l c => some ⟨id, l, c⟩
    | .attrE _ a l c => some ⟨a, l, c⟩
    | _ => none
  | _ => none

/-- raises.check of raises.py (textually identical to _check_raises of the
__init__.py under src/). -/
def checkRaises (d : Docstring) (dl dc : Nat) (raiseNodes : List RaiseNode) : List Problem :=
  let all_excs := raiseNodes.map (fun r => getExcNode r.exc)
  let has_raise_no_value := all_excs.any (fun e => e.isNone)
  let p1 :=
    if all_excs ≠ [] ∧ d.raises = none then
      [⟨dl, dc, RAISES_SECTION_NOT_IN_DOCSTR_MSG⟩] else []
  let p2 :=
    if all_excs = [] ∧ d.raises ≠ none then [⟨dl, dc, RAISES_SECTION_IN_DOCSTR_MSG⟩] else []
  let p3 :=
    if all_excs ≠ [] ∧ all_excs.all (fun e => e.isNone) ∧
        (d.raises = none ∨ d.raises = some []) then
      [⟨dl, dc, RE_RAISE_NO_EXC_IN_DOCSTR_MSG⟩]
    else
      match d.raises with
      | some docRaises =>
        if all_excs ≠ [] then
          let pMult :=
            if d.raises_sections.length > 1 then
              [⟨dl, dc, multRaisesMsg d.raises_sections⟩] else []
          let pMissing :=
            ((all_excs.filterMap id).filter (fun e => !(docRaises.contains e.name))).map
              (fun e => (⟨e.lineno, e.col_offset, excNotInDocstrMsg e.name⟩ : Problem))
          let func_exc := (all_excs.filterMap id).map (fun e => e.name)
          let pUnexpected :=
            if !has_raise_no_value then
              (sortStrs (dedupStrs (docRaises.filter (fun s => !(func_exc.contains s))))).map
                (fun s => (⟨dl, dc, excInDocstrMsg s⟩ : Problem))
            else []
          pMult ++ pMissing ++ pUnexpected
        else []
      | none => []
  p1 ++ p2 ++ p3

/-!
Embedding of attrs.py: property detection, target extraction, the
class-scope visitor and the attributes checker.
-/

/-- PRIVATE_ATTR_PREFIX in attrs.py (and UNUSED_ARGS_PREFIX reused for the
same purpose in the _check_attrs of __init__.py): the leading underscore. -/
def PRIVATE_ATTR_MARKER : List Char := "_".toList

/-- is_property_decorator of attrs.py: a bare property or cached_property
name, a call of a property decorator, or the functools.cached_property
attribute. -/
def isPropertyDecorator : PExpr → Bool
  | .nameE id _ _ => (id == "property".toList) || (id == "cached_property".toList)
  | .callE f _ _ _ => isPropertyDecorator f
  | .attrE v a _ _ =>
    (a == "cached_property".toList) &&
      (match v with
       | .nameE id _ _ => id == "functools".toList
       | _ => false)
  | _ => false

/-- _get_class_target_name of attrs.py / __init__.py: the Name node under an
assignment target, unwrapping attribute chains to their leftmost name; the
result keeps the Name node's own position. -/
def getClassTargetName : PExpr → Option Node
  | .nameE id l c => some ⟨id, l, c⟩
  | .attrE v _ _ _ =>
    match v with
    | .nameE id l c => some ⟨id, l, c⟩
    | .attrE v2 a2 l2 c2 => getClassTargetName (.attrE v2 a2 l2 c2)
    | _ => none
  | _ => none

/-- _get_method_target_node of attrs.py / __init__.py: the attribute assigned
on self or cls, keeping the Attribute node's position, unwrapping chained
attributes toward the receiver. -/
def getMethodTargetNode : PExpr → Option Node
  | .attrE v a l c =>
    match v with
    | .nameE id _ _ => if CLASS_SELF_CLS.contains id then some ⟨a, l, c⟩ else none
    | .attrE v2 a2 l2 c2 => getMethodTargetNode (.attrE v2 a2 l2 c2)
    | _ => none
  | _ => none

/-- an element of attrs.VisitorWithinClass.class_assign_nodes: either a
recorded assignment statement or the types_.Node recorded for a
property-decorated method. -/
inductive ClassEntry where
  | assignNode (s : Stmt)
  | propertyNode (n : Node)

/-- _iter_method_attrs of attrs.py / __init__.py over the recorded method
assignment statements (the visitor records only assignment statements, so
other statement kinds contribute nothing). -/
def iterMethodAttrs : List Stmt → List Node
  | [] => []
  | .assign ts _ _ _ :: rest => ts.filterMap getMethodTargetNode ++ iterMethodAttrs rest
  | .annAssign t _ _ _ :: rest => (getMethodTargetNode t).toList ++ iterMethodAttrs rest
  | .augAssign t _ _ _ :: rest => (getMethodTargetNode t).toList ++ iterMethodAttrs rest
  | _ :: rest => iterMethodAttrs rest

/-- _iter_class_attrs of attrs.py: types_.Node entries pass through, Assign
targets are flattened through _get_class_target_name, AnnAssign and
AugAssign use their single target. -/
def iterClassAttrsA : List ClassEntry → List Node
  | [] => []
  | .propertyNode n :: rest => n :: iterClassAttrsA rest
  | .assignNode (.assign ts _ _ _) :: rest =>
      ts.filterMap getClassTargetName ++ iterClassAttrsA rest
  | .assignNode (.annAssign t _ _ _) :: rest =>
      (getClassTargetName t).toList ++ iterClassAttrsA rest
  | .assignNode (.augAssign t _ _ _) :: rest =>
      (getClassTargetName t).toList ++ iterClassAttrsA rest
  | .assignNode _ :: rest => iterClassAttrsA rest

/-- _iter_class_attrs of the __init__.py under src/ (lines 476-504): as the
attrs.py version but with no types_.Node passthrough, since that visitor
never records one. -/
def initIterClassAttrs : List Stmt → List Node
  | [] => []
  | .assign ts _ _ _ :: rest => ts.filterMap getClassTargetName ++ initIterClassAttrs rest
  | .annAssign t _ _ _ :: rest => (getClassTargetName t).toList ++ initIterClassAttrs rest
  | .augAssign t _ _ _ :: rest => (getClassTargetName t).toList ++ initIterClassAttrs rest
  | _ :: rest => initIterClassAttrs rest

/-- componentwise append for the pairs of collected node lists. -/
def pairApp {α β : Type} (x y : List α × List β) : List α × List β :=
  (x.1 ++ y.1, x.2 ++ y.2)

mutual
/-- attrs.VisitorWithinClass restricted to one statement of the class body.
The inMethod flag models _visited_top_level: false at class level, true
inside the top level of a method.  An assignment is recorded at class or
method level accordingly; a function definition first records a
property-decorated method as a types_.Node class entry
(visit_any_function), then its top level is entered only from class level
(visit_top_level); nested class definitions are skipped (visit_once). -/
def attrsClassStmt (inMethod : Bool) : Stmt → List ClassEntry × List Stmt
  | .assign ts v l c =>
      if inMethod then ([], [.assign ts v l c]) else ([.assignNode (.assign ts v l c)], [])
  | .annAssign t v l c =>
      if inMethod then ([], [.annAssign t v l c]) else ([.assignNode (.annAssign t v l c)], [])
  | .augAssign t v l c =>
      if inMethod then ([], [.augAssign t v l c]) else ([.assignNode (.augAssign t v l c)], [])
  | .functionDef nm _ body decs l c _ =>
      let prop : List ClassEntry :=
        if decs.any isPropertyDecorator then [.propertyNode ⟨nm, l, c⟩] else []
      if inMethod then (prop, [])
      else pairApp (prop, []) (attrsClassStmts true body)
  | .classDef _ _ _ _ _ => ([], [])
  | .otherStmt body _ _ _ => attrsClassStmts inMethod body
  | _ => ([], [])

/-- attrs.VisitorWithinClass over a list of statements. -/
def attrsClassStmts (inMethod : Bool) : List Stmt → List ClassEntry × List Stmt
  | [] => ([], [])
  | s :: rest => pairApp (attrsClassStmt inMethod s) (attrsClassStmts inMethod rest)
end

mutual
/-- VisitorWithinClass of the __init__.py under src/ (lines 697-760): as the
attrs.py visitor but without the property-decorated-method recording, and
collecting plain assignment statements at class level. -/
def initClassStmt (inMethod : Bool) : Stmt → List Stmt × List Stmt
  | .assign ts v l c =>
      if inMethod then ([], [.assign ts v l c]) else ([.assign ts v l c], [])
  | .annAssign t v l c =>
      if inMethod then ([], [.annAssign t v l c]) else ([.annAssign t v l c], [])
  | .augAssign t v l c =>
      if inMethod then ([], [.augAssign t v l c]) else ([.augAssign t v l c], [])
  | .functionDef _ _ body _ _ _ _ =>
      if inMethod then ([], []) else initClassStmts true body
  | .classDef _ _ _ _ _ => ([], [])
  | .otherStmt body _ _ _ => initClassStmts inMethod body
  | _ => ([], [])

/-- the __init__.py VisitorWithinClass over a list of statements. -/
def initClassStmts (inMethod : Bool) : List Stmt → List Stmt × List Stmt
  | [] => ([], [])
  | s :: rest => pairApp (initClassStmt inMethod s) (initClassStmts inMethod rest)
end

/-- attrs.check of attrs.py.  The section-needed decision uses public
class-level targets only; the entry-validity decision uses every target. -/
def attrsCheck (d : Docstring) (dl dc : Nat) (classAssignNodes : List ClassEntry)
    (methodAssignNodes : List Stmt) : List Problem :=
  let all_class_targets := iterClassAttrsA classAssignNodes
  let all_public_class_targets :=
    all_class_targets.filter (fun t => !(PRIVATE_ATTR_MARKER.isPrefixOf t.name))
  let all_targets := all_class_targets ++ iterMethodAttrs methodAssignNodes
  let p1 :=
    if all_public_class_targets ≠ [] ∧ d.attrs = none then
      [⟨dl, dc, ATTRS_SECTION_NOT_IN_DOCSTR_MSG⟩] else []
  let p2 :=
    if all_targets = [] ∧ d.attrs ≠ none then [⟨dl, dc, ATTRS_SECTION_IN_DOCSTR_MSG⟩] else []
  let p3 :=
    match d.attrs with
    | some docAttrs =>
      if all_targets ≠ [] then
        let pMult :=
          if d.attrs_sections.length > 1 then
            [⟨dl, dc, multAttrsMsg d.attrs_sections⟩] else []
        let pMissing :=
          (all_public_class_targets.filter (fun t => !(docAttrs.contains t.name))).map
            (fun t => (⟨t.lineno, t.col_offset, attrNotInDocstrMsg t.name⟩ : Problem))
        let class_attrs := all_targets.map (fun t => t.name)
        let pUnexpected :=
          (sortStrs (dedupStrs (docAttrs.filter (fun s => !(class_attrs.contains s))))).map
            (fun s => (⟨dl, dc, attrInDocstrMsg s⟩ : Problem))
        let pDup :=
          ((dedupStrs docAttrs).filter (fun s => docAttrs.count s > 1)).map
            (fun s => (⟨dl, dc, duplicateAttrMsg s⟩ : Problem))
        let pEmpty :=
          if all_public_class_targets = [] ∧ docAttrs.length = 0 then
            [⟨dl, dc, ATTRS_SECTION_IN_DOCSTR_MSG⟩] else []
        pMult ++ pMissing ++ pUnexpected ++ pDup ++ pEmpty
      else []
    | none => []
  p1 ++ p2 ++ p3

/-- _check_attrs of the __init__.py under src/ (lines 547-608): the
section-needed decision uses the public targets of the full list (class and
method levels combined), there is no duplicate-entry check and the multiple
sections message carries the dco022 suffix quirk. -/
def initCheckAttrs (d : Docstring) (dl dc : Nat) (classAssignNodes methodAssignNodes : List Stmt) :
    List Problem :=
  let all_targets := initIterClassAttrs classAssignNodes ++ iterMethodAttrs methodAssignNodes
  let all_public_targets :=
    all_targets.filter (fun t => !(UNUSED_ARGS_MARKER.isPrefixOf t.name))
  let p1 :=
    if all_public_targets ≠ [] ∧ d.attrs = none then
      [⟨dl, dc, ATTRS_SECTION_NOT_IN_DOCSTR_MSG⟩] else []
  let p2 :=
    if all_targets = [] ∧ d.attrs ≠ none then [⟨dl, dc, ATTRS_SECTION_IN_DOCSTR_MSG⟩]
    else
      match d.attrs with
      | some docAttrs =>
        if all_targets ≠ [] then
          let pMult :=
            if d.attrs_sections.length > 1 then
              [⟨dl, dc, initMultAttrsMsg d.attrs_sections⟩] else []
          let pMissing :=
            (all_public_targets.filter (fun t => !(docAttrs.contains t.name))).map
              (fun t => (⟨t.lineno, t.col_offset, initAttrNotInDocstrMsg t.name⟩ : Problem))
          let class_attrs := all_targets.map (fun t => t.name)
          let pUnexpected :=
            (sortStrs (dedupStrs (docAttrs.filter (fun s => !(class_attrs.contains s))))).map
              (fun s => (⟨dl, dc, attrInDocstrMsg s⟩ : Problem))
          let pEmpty :=
            if all_public_targets = [] ∧ docAttrs.length = 0 then
              [⟨dl, dc, ATTRS_SECTION_IN_DOCSTR_MSG⟩] else []
          pMult ++ pMissing ++ pUnexpected ++ pEmpty
        else []
      | none => []
  p1 ++ p2

/-!
Embedding of VisitorWithinFunction and of the _check_returns and
_check_yields checkers of the __init__.py under src/.
-/

/-- a recorded return statement. -/
structure RetNode where
  value : Option PExpr
  lineno : Nat
  col_offset : Nat

/-- a recorded yield or yield-from expression (a plain ast.YieldFrom always
carries a value). -/
structure YieldNode where
  value : Option PExpr
  lineno : Nat
  col_offset : Nat

/-- the three node lists VisitorWithinFunction accumulates. -/
structure FnFacts where
  return_nodes : List RetNode := []
  yield_nodes : List YieldNode := []
  raise_nodes : List RaiseNode := []

/-- concatenation of accumulated facts, preserving per-list order. -/
def FnFacts.app (a b : FnFacts) : FnFacts :=
  ⟨a.return_nodes ++ b.return_nodes, a.yield_nodes ++ b.yield_nodes,
    a.raise_nodes ++ b.raise_nodes⟩

mutual
/-- yield and yield-from nodes inside one expression, in generic_visit
order: a yield records itself (visit_Yield / visit_YieldFrom) and then its
child expressions are visited. -/
def exprYieldNodes : PExpr → List YieldNode
  | .yieldE v l c => ⟨v, l, c⟩ :: optYieldNodes v
  | .yieldFromE v l c => ⟨some v, l, c⟩ :: exprYieldNodes v
  | .attrE v _ _ _ => exprYieldNodes v
  | .callE f as2 _ _ => exprYieldNodes f ++ exprListYieldNodes as2
  | .otherE cs _ _ => exprListYieldNodes cs
  | .nameE _ _ _ => []
  | .constStrE _ _ _ => []
  | .constOtherE _ _ => []

/-- yield nodes of an optional expression. -/
def optYieldNodes : Option PExpr → List YieldNode
  | some e => exprYieldNodes e
  | none => []

/-- yield nodes of a list of expressions. -/
def exprListYieldNodes : List PExpr → List YieldNode
  | [] => []
  | e :: es => exprYieldNodes e ++ exprListYieldNodes es
end

mutual
/-- VisitorWithinFunction restricted to one statement: return, yield and
raise nodes are recorded, generic_visit recursion continues through ordinary
control flow and through the expressions of each statement, and stops at
nested function and class definitions (visit_once). -/
def fnStmtFacts : Stmt → FnFacts
  | .functionDef _ _ _ _ _ _ _ => {}
  | .classDef _ _ _ _ _ => {}
  | .ret v l c => { return_nodes := [⟨v, l, c⟩], yield_nodes := optYieldNodes v }
  | .raiseStmt e l c => { raise_nodes := [⟨e, l, c⟩], yield_nodes := optYieldNodes e }
  | .assign ts v _ _ => { yield_nodes := exprListYieldNodes ts ++ exprYieldNodes v }
  | .annAssign t v _ _ => { yield_nodes := exprYieldNodes t ++ optYieldNodes v }
  | .augAssign t v _ _ => { yield_nodes := exprYieldNodes t ++ exprYieldNodes v }
  | .exprStmt v _ _ => { yield_nodes := exprYieldNodes v }
  | .otherStmt body exprs _ _ =>
      FnFacts.app { yield_nodes := exprListYieldNodes exprs } (fnStmtsFacts body)

/-- VisitorWithinFunction over a list of statements. -/
def fnStmtsFacts : List Stmt → FnFacts
  | [] => {}
  | s :: rest => FnFacts.app (fnStmtFacts s) (fnStmtsFacts rest)
end

/-- VisitorWithinFunction.visit applied to the function definition node: the
first visit recurses (visit_once), covering the body and then the decorator
expressions (the ast field order), and no nested definition. -/
def fnFacts (body : List Stmt) (decorators : List PExpr) : FnFacts :=
  FnFacts.app (fnStmtsFacts body) { yield_nodes := exprListYieldNodes decorators }

/-- the runtime error raised by an attribute lookup that fails. -/
inductive PyErr where
  | attributeError
deriving DecidableEq

/-- the docstr_info.returns attribute read by _check_returns (__init__.py
lines 294 and 309): the Docstring named tuple of the docstring.py under src/
defines no returns field (its fields are listed at lines 41-48), so the
lookup raises AttributeError instead of producing a value. -/
def returnsAttrGet (_ : Docstring) : Except PyErr Bool := .error .attributeError

/-- the docstr_info.yields attribute read by _check_yields (__init__.py
lines 331 and 346): as with returns, the Docstring named tuple defines no
yields field, so the lookup raises AttributeError. -/
def yieldsAttrGet (_ : Docstring) : Except PyErr Bool := .error .attributeError

/-- _check_returns of the __init__.py under src/ (lines 278-310).  The
short-circuit of the Python conditions is kept: the returns attribute is
read by the first condition when value-carrying return nodes exist and by
the third condition when none do, so the attribute is read on every call. -/
def checkReturns (d : Docstring) (dl dc : Nat) (rets : List RetNode) :
    Except PyErr (List Problem) :=
  let rwv := rets.filter (fun n => n.value.isSome)
  if rwv.isEmpty then
    match returnsAttrGet d with
    | .error e => .error e
    | .ok r => .ok (if r then [⟨dl, dc, RETURNS_SECTION_IN_DOCSTR_MSG⟩] else [])
  else
    match returnsAttrGet d with
    | .error e => .error e
    | .ok r =>
      let p1 :=
        if !r then
          rwv.map (fun n => (⟨n.lineno, n.col_offset, RETURNS_SECTION_NOT_IN_DOCSTR_MSG⟩ : Problem))
        else []
      let p2 :=
        if d.returns_sections.length > 1 then
          [(⟨dl, dc, multReturnsMsg d.returns_sections⟩ : Problem)] else []
      .ok (p1 ++ p2)

/-- _check_yields of the __init__.py under src/ (lines 313-347), reading the
equally missing yields attribute. -/
def checkYields (d : Docstring) (dl dc : Nat) (ylds : List YieldNode) :
    Except PyErr (List Problem) :=
  let ywv := ylds.filter (fun n => n.value.isSome)
  if ywv.isEmpty then
    match yieldsAttrGet d with
    | .error e => .error e
    | .ok r => .ok (if r then [⟨dl, dc, YIELDS_SECTION_IN_DOCSTR_MSG⟩] else [])
  else
    match yieldsAttrGet d with
    | .error e => .error e
    | .ok r =>
      let p1 :=
        if !r then
          ywv.map (fun n => (⟨n.lineno, n.col_offset, YIELDS_SECTION_NOT_IN_DOCSTR_MSG⟩ : Problem))
        else []
      let p2 :=
        if d.yields_sections.length > 1 then
          [(⟨dl, dc, multYieldsMsg d.yields_sections⟩ : Problem)] else []
      .ok (p1 ++ p2)

/-!
Embedding of the orchestrating Visitor of the __init__.py under src/.
-/

/-- the per-file configuration the Visitor constructor receives.  The two
configured regular expressions are modelled as the boolean predicates their
re.match / re.search uses induce: testFunctionMatch stands for
re.match(test_function_pattern, name) and fixtureDecoratorMatch for
re.search(fixture_decorator_pattern, name, re.IGNORECASE). -/
structure VisitCfg where
  file_type : FileType
  testFunctionMatch : List Char → Bool
  fixtureDecoratorMatch : List Char → Bool

/-- Visitor._is_fixture_decorator (__init__.py lines 790-814): a bare name or
an attribute is matched by the configured pattern, a call recurses on the
callee, anything else is not a fixture decorator. -/
def isFixtureDecorator (cfg : VisitCfg) : PExpr → Bool
  | .nameE id _ _ => cfg.fixtureDecoratorMatch id
  | .attrE _ a _ _ => cfg.fixtureDecoratorMatch a
  | .callE f _ _ _ => isFixtureDecorator cfg f
  | _ => false

/-- Visitor._skip_function as written in the __init__.py under src/ (lines
816-831): skip a test-named function in a test file, and any
fixture-decorated function in a test or fixture file. -/
def skipFunctionSrc (cfg : VisitCfg) (name : List Char) (decorators : List PExpr) : Bool :=
  if cfg.file_type = FileType.test ∧ cfg.testFunctionMatch name then true
  else if cfg.file_type = FileType.test ∨ cfg.file_type = FileType.fixture then
    decorators.any (isFixtureDecorator cfg)
  else false

/-- Modelled from the spec: the "intentionally overloaded" marker of §4.4 ("A
decorator that is a marker for "intentionally overloaded" (an explicit
"overload" marker, bare, dotted, or called) also causes a skip, independent
of file classification").  The __init__.py under src/ predates this feature
(it is also version-inconsistent with docstring.py, see returnsAttrGet), so
the marker test is reconstructed from the spec wording. -/
def isOverloadDecorator : PExpr → Bool
  | .nameE id _ _ => id == "overload".toList
  | .attrE _ a _ _ => a == "overload".toList
  | .callE f _ _ _ => isOverloadDecorator f
  | _ => false

/-- the complete skip decision: the source conditions of skipFunctionSrc
plus the spec-modelled overload-marker skip. -/
def skipFunction (cfg : VisitCfg) (name : List Char) (decorators : List PExpr) : Bool :=
  skipFunctionSrc cfg name decorators || decorators.any isOverloadDecorator

/-- the docstring constant of a definition body: ast.get_docstring(node) is
not None exactly when the first body statement is an expression statement
holding a string constant, the same shape __init__.py lines 846-851 and
908-912 test before parsing node.body[0].value.value. -/
def docstringConst : List Stmt → Option (List Char × Nat × Nat)
  | .exprStmt (.constStrE s l c) _ _ :: _ => some (s, l, c)
  | _ => none

mutual
/-- Visitor.visit restricted to one statement.  A function definition is
checked unless skipped (visit_any_function): a missing docstring yields
DCO010, a present docstring is parsed and fed to the args, returns, yields
and raises checkers in that order, an exception from a checker propagates;
generic_visit then continues into the body so nested definitions are
independently checked.  A class definition (visit_ClassDef) is checked for
a missing docstring and its attributes via the __init__.py class visitor
and _check_attrs, then its body is visited. -/
def visitorStmt (cfg : VisitCfg) : Stmt → Except PyErr (List Problem)
  | .functionDef name argsSpec body decs l c _ =>
    let own : Except PyErr (List Problem) :=
      if skipFunction cfg name decs then .ok []
      else
        let missing :=
          if (docstringConst body).isNone then [(⟨l, c, DOCSTR_MISSING_MSG⟩ : Problem)] else []
        match docstringConst body with
        | some (s, dl, dc) =>
          let d := parseCh s
          let facts := fnFacts body decs
          let argsP := checkArgs d dl dc argsSpec
          match checkReturns d dl dc facts.return_nodes with
          | .error e => .error e
          | .ok retP =>
            match checkYields d dl dc facts.yield_nodes with
            | .error e => .error e
            | .ok yldP =>
              let raiP := checkRaises d dl dc facts.raise_nodes
              .ok (missing ++ argsP ++ retP ++ yldP ++ raiP)
        | none => .ok missing
    match own with
    | .error e => .error e
    | .ok o =>
      match visitorStmts cfg body with
      | .error e => .error e
      | .ok r => .ok (o ++ r)
  | .classDef _ body _ l c =>
    let own : List Problem :=
      let missing :=
        if (docstringConst body).isNone then [(⟨l, c, DOCSTR_MISSING_MSG⟩ : Problem)] else []
      match docstringConst body with
      | some (s, dl, dc) =>
        let d := parseCh s
        let collected := initClassStmts false body
        missing ++ initCheckAttrs d dl dc collected.1 collected.2
      | none => missing
    (match visitorStmts cfg body with
     | .error e => .error e
     | .ok r => .ok (own ++ r))
  | .otherStmt body _ _ _ => visitorStmts cfg body
  | _ => .ok []

/-- Visitor.visit over a list of statements (the module body or the children
of a definition). -/
def visitorStmts (cfg : VisitCfg) : List Stmt → Except PyErr (List Problem)
  | [] => .ok []
  | s :: rest =>
    match visitorStmt cfg s with
    | .error e => .error e
    | .ok p =>
      match visitorStmts cfg rest with
      | .error e => .error e
      | .ok q => .ok (p ++ q)
end

/-!
Concrete inputs used by the theorems below.
-/

/-- a module statement for `def foo(): """Docstring."""`. -/
def exampleFooDef : Stmt :=
  Stmt.functionDef ("foo".toList) {}
    [Stmt.exprStmt (PExpr.constStrE ("Docstring.".toList) 2 4) 2 4] [] 1 0 false

/-- the docstring of the C2 scenario class: a summary plus an Attrs section
documenting exactly attr_1. -/
def exampleClassDoc : List Char := ("Docstring.\n\n    Attrs:\n        attr_1:\n    ".toList)

/-- the property-decorated method attr_1 of the C2 scenario class, itself
fully documented (summary plus Returns section) and returning a value. -/
def examplePropertyMethod : Stmt :=
  Stmt.functionDef ("attr_1".toList) {}
    [Stmt.exprStmt
        (PExpr.constStrE ("Docstring.\n\n    Returns:\n        The attribute.\n    ".toList) 6 8)
        6 8,
      Stmt.ret (some (PExpr.constStrE ("v".toList) 8 15)) 8 8]
    [PExpr.nameE ("property".toList) 4 5] 5 4 false

/-- the body of the C2 scenario class: its docstring and the property. -/
def exampleClassBody : List Stmt :=
  [Stmt.exprStmt (PExpr.constStrE exampleClassDoc 2 4) 2 4, examplePropertyMethod]

/-- the docstring of the C4 failing input, documenting arg_1 twice. -/
def c4Doc : List Char :=
  ("Docstring 1.\n\n    Args:\n        arg_1:\n        arg_1:\n    ".toList)

/-- the parameters of the C4 failing input function `def function_1(arg_1)`. -/
def c4Args : Arguments := { args := [⟨"arg_1".toList, 2, 15⟩] }

/-- the parameters of the C6 counterexample, a plain function
`def foo(self)` whose only parameter is named self. -/
def c6Args : Arguments := { args := [⟨"self".toList, 1, 8⟩] }

end FDC

namespace FDC

/-!
Shared helper lemmas.
-/

/-- dropWhile skips a block of elements that all satisfy the predicate. -/
theorem dropWhile_append_all {p : Char → Bool} :
    ∀ (a b : List Char), (∀ x ∈ a, p x = true) → (a ++ b).dropWhile p = b.dropWhile p
  | [], _, _ => rfl
  | x :: xs, b, h => by
    have hx : p x = true := h x (List.mem_cons_self x xs)
    simpa [List.dropWhile_cons, hx] using
      dropWhile_append_all xs b (fun y hy => h y (List.mem_cons_of_mem x hy))

/-- takeWhile for the word class collects an all-word block up to a colon. -/
theorem takeWhile_word :
    ∀ (w rest : List Char), (∀ ch ∈ w, isWordChar ch = true) →
      (w ++ ':' :: rest).takeWhile isWordChar = w
  | [], _, _ => by
    have hc : isWordChar ':' = false := by decide
    simp [List.takeWhile_cons, hc]
  | ch :: w2, rest, h => by
    have hch : isWordChar ch = true := h ch (List.mem_cons_self ch w2)
    simpa [List.takeWhile_cons, hch] using
      takeWhile_word w2 rest (fun x hx => h x (List.mem_cons_of_mem ch hx))

/-- dropWhile for the word class drops an all-word block up to a colon. -/
theorem dropWhile_word :
    ∀ (w rest : List Char), (∀ ch ∈ w, isWordChar ch = true) →
      (w ++ ':' :: rest).dropWhile isWordChar = ':' :: rest
  | [], _, _ => by
    have hc : isWordChar ':' = false := by decide
    simp [List.dropWhile_cons, hc]
  | ch :: w2, rest, h => by
    have hch : isWordChar ch = true := h ch (List.mem_cons_self ch w2)
    simpa [List.dropWhile_cons, hch] using
      dropWhile_word w2 rest (fun x hx => h x (List.mem_cons_of_mem ch hx))

/-- a word character is never a whitespace character. -/
theorem word_not_space (ch : Char) (h : isWordChar ch = true) : isPySpace ch = false := by
  cases hps : isPySpace ch
  · rfl
  · exfalso
    have hd : ch = ' ' ∨ ch = '\t' ∨ ch = '\n' ∨ ch = '\r' ∨ ch = '\x0b' ∨ ch = '\x0c' := by
      simpa [isPySpace, Bool.or_eq_true, beq_iff_eq, or_assoc] using hps
    rcases hd with h1 | h1 | h1 | h1 | h1 | h1 <;> subst h1 <;> exact absurd h (by decide)

/-- the per-section selector of the headers list succeeds exactly when the
first-match filter succeeds. -/
theorem sectionNameIfMatch_isSome (names : List (List Char)) (s : DSection) :
    (sectionNameIfMatch names s).isSome = sectionMatches names s := by
  cases hn : s.name with
  | none => simp [sectionNameIfMatch, sectionMatches, hn]
  | some n =>
    simp only [sectionNameIfMatch, sectionMatches, hn]
    cases hc : names.contains (lowerStr n) <;> simp [hc]

/-- the first matching section is absent exactly when the list of matching
header spellings is empty. -/
theorem getSection_none_iff (names : List (List Char)) :
    ∀ sections, getSectionByName names sections = none ↔
      getAllSectionNamesByName names sections = []
  | [] => by simp [getSectionByName, getAllSectionNamesByName]
  | s :: rest => by
    cases hm : sectionMatches names s
    · have hnone : sectionNameIfMatch names s = none := by
        have := sectionNameIfMatch_isSome names s
        rw [hm] at this
        exact Option.not_isSome_iff_eq_none.mp (by simp [this])
      simp only [getSectionByName, getAllSectionNamesByName] at *
      rw [List.find?_cons_of_neg _ (by simp [hm]), List.filterMap_cons_none hnone]
      exact getSection_none_iff names rest
    · have hsome : (sectionNameIfMatch names s).isSome = true := by
        rw [sectionNameIfMatch_isSome, hm]
      obtain ⟨n, hn⟩ := Option.isSome_iff_exists.mp hsome
      simp only [getSectionByName, getAllSectionNamesByName]
      rw [List.find?_cons_of_pos _ hm, List.filterMap_cons_some hn]
      simp

/-!
Claim theorems.
-/

/-- C1: the claim states that for every well-formed tree and filename the full
check (Plugin.run over Visitor and the per-concern checkers, including
_check_returns and _check_yields on any function with a docstring) completes
normally and never raises.  The code violates this: _check_returns and
_check_yields read the returns and yields attributes, which the Docstring
named tuple of docstring.py does not define, so the visitor raises
AttributeError on the very first function that has a docstring.  The theorem
evaluates the embedded visitor at the failing input
`def foo(): """Docstring."""` in a default-classified file, for every
configuration of the two pattern predicates. -/
theorem c1_run_raises_attribute_error (tfm fdm : List Char → Bool) :
    visitorStmts ⟨FileType.default, tfm, fdm⟩ [exampleFooDef] =
      Except.error PyErr.attributeError := by
  rfl

/-- C2: a method decorated with a property-style marker decorator is recorded
by the class visitor of attrs.py as a class field named after the method (for
any class body in which it is a direct member, and for the bare, qualified or
called decorator forms, which isPropertyDecorator accepts); and the scenario
class whose only attribute is the property-decorated method attr_1, with an
attributes section listing exactly attr_1, yields zero findings from the
attributes checker. -/
theorem c2_property_method_recorded (body : List Stmt) (nm : List Char) (a : Arguments)
    (fb : List Stmt) (decs : List PExpr) (l c : Nat) (ia : Bool)
    (hmem : Stmt.functionDef nm a fb decs l c ia ∈ body)
    (hprop : ∃ d ∈ decs, isPropertyDecorator d = true) :
    ClassEntry.propertyNode ⟨nm, l, c⟩ ∈ (attrsClassStmts false body).1 ∧
      attrsCheck (parseCh exampleClassDoc) 2 4 (attrsClassStmts false exampleClassBody).1
        (attrsClassStmts false exampleClassBody).2 = [] := by
  constructor
  · have hany : decs.any isPropertyDecorator = true := by
      obtain ⟨d, hd, hpd⟩ := hprop
      exact List.any_eq_true.mpr ⟨d, hd, hpd⟩
    induction body with
    | nil => cases hmem
    | cons s rest ih =>
      rcases List.mem_cons.mp hmem with heq | htail
      · subst heq
        cases ia <;>
          simp [attrsClassStmts, attrsClassStmt, pairApp, hany]
      · have := ih htail
        simp only [attrsClassStmts, pairApp, List.mem_append]
        exact Or.inr this
  · decide

/-- C2 witness: the general part applied to the scenario class body records
the property method attr_1 at its own position. -/
theorem c2_property_method_recorded_witness :
    ClassEntry.propertyNode ⟨("attr_1".toList), 5, 4⟩ ∈ (attrsClassStmts false exampleClassBody).1 :=
  (c2_property_method_recorded exampleClassBody ("attr_1".toList) {}
      [Stmt.exprStmt
          (PExpr.constStrE ("Docstring.\n\n    Returns:\n        The attribute.\n    ".toList) 6 8)
          6 8,
        Stmt.ret (some (PExpr.constStrE ("v".toList) 8 15)) 8 8]
      [PExpr.nameE ("property".toList) 4 5] 5 4 false
      (by simp [exampleClassBody, examplePropertyMethod])
      ⟨PExpr.nameE ("property".toList) 4 5, by simp, by decide⟩).1

/-- C3: a function definition carrying an overload-marker decorator (bare,
dotted, or called, as isOverloadDecorator accepts) is skipped entirely: the
skip decision is true and visiting the definition contributes no finding of
its own, only the visit of its body, in every file classification and for
every configured pattern (the configuration is universally quantified).  The
overload branch of the skip is modelled from the spec, see
isOverloadDecorator. -/
theorem c3_overload_skipped (cfg : VisitCfg) (nm : List Char) (a : Arguments)
    (body : List Stmt) (decs : List PExpr) (l c : Nat) (ia : Bool)
    (hov : ∃ d ∈ decs, isOverloadDecorator d = true) :
    skipFunction cfg nm decs = true ∧
      visitorStmt cfg (Stmt.functionDef nm a body decs l c ia) = visitorStmts cfg body := by
  have hany : decs.any isOverloadDecorator = true := by
    obtain ⟨d, hd, hpd⟩ := hov
    exact List.any_eq_true.mpr ⟨d, hd, hpd⟩
  have hskip : skipFunction cfg nm decs = true := by
    simp [skipFunction, hany]
  refine ⟨hskip, ?_⟩
  cases hv : visitorStmts cfg body <;>
    simp [visitorStmt, hskip, hv]

/-- C3 witness: a bare overload decorator on an undocumented function in a
test-classified file is skipped and yields no finding. -/
theorem c3_overload_skipped_witness :
    skipFunction ⟨FileType.test, fun _ => false, fun _ => false⟩ ("foo".toList)
        [PExpr.nameE ("overload".toList) 1 1] = true ∧
      visitorStmt ⟨FileType.test, fun _ => false, fun _ => false⟩
          (Stmt.functionDef ("foo".toList) {} [] [PExpr.nameE ("overload".toList) 1 1] 1 0 false) =
        visitorStmts ⟨FileType.test, fun _ => false, fun _ => false⟩ [] :=
  c3_overload_skipped ⟨FileType.test, fun _ => false, fun _ => false⟩ ("foo".toList) {} []
    [PExpr.nameE ("overload".toList) 1 1] 1 0 false
    ⟨PExpr.nameE ("overload".toList) 1 1, by simp, by decide⟩

/-- C4: the claim states the arguments checker emits an item-duplicated
finding when an entry name occurs more than once in the args section.  The
code violates this: at the failing input `def function_1(arg_1)` whose
docstring documents arg_1 twice, the parsed args entries contain the
duplicate, yet args.check (identically _check_args of __init__.py) returns
no finding at all, contradicting the repository's own tests which expect
DUPLICATE_ARG_MSG. -/
theorem c4_no_duplicate_arg_finding :
    (parseCh c4Doc).args = some [("arg_1".toList), ("arg_1".toList)] ∧
      checkArgs (parseCh c4Doc) 3 4 c4Args = [] := by
  decide

/-- C5: for a function with no parameters whose docstring is the summary line
"Docstring." (so no raises section) and whose body contains exactly one bare
re-raise, the raises checker (raises.check, identically _check_raises of
__init__.py) yields exactly two findings, raises-section-missing and
re-raise-without-named-exception, both at the docstring position; the first
conjunct ties the raise facts to the within-function visitor on that body. -/
theorem c5_bare_reraise_two_findings (dl dc l c : Nat) :
    (fnFacts [Stmt.exprStmt (PExpr.constStrE ("Docstring.".toList) dl dc) dl dc,
        Stmt.raiseStmt none l c] []).raise_nodes = [⟨none, l, c⟩] ∧
      checkRaises (parseCh ("Docstring.".toList)) dl dc [⟨none, l, c⟩] =
        [⟨dl, dc, RAISES_SECTION_NOT_IN_DOCSTR_MSG⟩,
          ⟨dl, dc, RE_RAISE_NO_EXC_IN_DOCSTR_MSG⟩] := by
  constructor
  · rfl
  · rfl

/-- C6 counterexample: the claim states that for a plain (non-method)
function a parameter named self appears in the effective parameter list and
is subject to the arguments checks.  At the concrete input `def foo(self)`
with docstring "Docstring." (no args section) the effective parameter list
is empty and the checker emits nothing, though the claim would require self
to be treated as a used parameter (forcing an args-section-missing finding):
the exclusion in _iter_args is unconditional, with no notion of method. -/
theorem c6_self_excluded_counterexample :
    iterArgs c6Args = [] ∧ checkArgs (parseCh ("Docstring.".toList)) 2 4 c6Args = [] := by
  decide

/-- C6 amended: the receiver-name exclusion is unconditional — _iter_args has
no notion of whether the definition is a method, and removes every
positional or positional-only parameter named self or cls; consequently any
self or cls parameter surviving into the effective list can only come from
the keyword-only, vararg or kwarg groups. -/
theorem c6_self_cls_excluded_unconditionally (a : Arguments) (x : Arg)
    (hx : x ∈ iterArgs a)
    (hname : x.arg = ("self".toList) ∨ x.arg = ("cls".toList)) :
    x ∈ a.kwonlyargs ∨ a.vararg = some x ∨ a.kwarg = some x := by
  have hcontains : CLASS_SELF_CLS.contains x.arg = true := by
    rcases hname with h | h <;> rw [h] <;> decide
  simp only [iterArgs, List.mem_append] at hx
  rcases hx with ((((h | h) | h) | h) | h)
  · have h2 : (!(CLASS_SELF_CLS.contains x.arg)) = true := (List.mem_filter.mp h).2
    rw [hcontains] at h2
    exact absurd h2 (by decide)
  · have h2 : (!(CLASS_SELF_CLS.contains x.arg)) = true := (List.mem_filter.mp h).2
    rw [hcontains] at h2
    exact absurd h2 (by decide)
  · exact Or.inl h
  · exact Or.inr (Or.inl (by simpa [Option.mem_toList, Option.mem_def] using h))
  · exact Or.inr (Or.inr (by simpa [Option.mem_toList, Option.mem_def] using h))

/-- C6 witness: the amended theorem applied to a keyword-only parameter named
self, which does survive into the effective list. -/
theorem c6_self_cls_excluded_unconditionally_witness :
    (⟨("self".toList), 1, 2⟩ : Arg) ∈
        ({ kwonlyargs := [⟨("self".toList), 1, 2⟩] } : Arguments).kwonlyargs ∨
      ({ kwonlyargs := [⟨("self".toList), 1, 2⟩] } : Arguments).vararg =
        some ⟨("self".toList), 1, 2⟩ ∨
      ({ kwonlyargs := [⟨("self".toList), 1, 2⟩] } : Arguments).kwarg =
        some ⟨("self".toList), 1, 2⟩ :=
  c6_self_cls_excluded_unconditionally { kwonlyargs := [⟨("self".toList), 1, 2⟩] }
    ⟨("self".toList), 1, 2⟩ (by decide) (Or.inl rfl)

/-- C7: for a function whose effective parameters are non-empty but all start
with the unused marker, and whose docstring has an args section with zero
entries, the arguments checker emits the section-unexpected finding at the
docstring node instead of accepting the empty section. -/
theorem c7_empty_args_section_unexpected (d : Docstring) (dl dc : Nat) (a : Arguments)
    (hne : iterArgs a ≠ [])
    (hun : ∀ x ∈ iterArgs a, UNUSED_ARGS_MARKER.isPrefixOf x.arg = true)
    (hargs : d.args = some []) :
    (⟨dl, dc, ARGS_SECTION_IN_DOCSTR_MSG⟩ : Problem) ∈ checkArgs d dl dc a := by
  have hused : (iterArgs a).filter (fun x => !(UNUSED_ARGS_MARKER.isPrefixOf x.arg)) = [] := by
    rw [List.filter_eq_nil_iff]
    intro x hx
    simp [hun x hx]
  simp only [checkArgs, hused, hargs, hne, ne_eq, not_false_iff, and_true, false_and, if_false,
    List.length_nil]
  simp [hne, List.mem_append]

/-- C7 witness: the theorem applied to a function whose only parameter is
_x and whose docstring has an empty args section. -/
theorem c7_empty_args_section_unexpected_witness :
    (⟨2, 4, ARGS_SECTION_IN_DOCSTR_MSG⟩ : Problem) ∈
      checkArgs (parseCh ("Docstring.\n\n    Args:\n    ".toList)) 2 4
        { args := [⟨"_x".toList, 1, 8⟩] } :=
  c7_empty_args_section_unexpected (parseCh ("Docstring.\n\n    Args:\n    ".toList)) 2 4
    { args := [⟨"_x".toList, 1, 8⟩] } (by decide) (by decide) (by decide)

/-- C8: for every input string, the parsed docstring satisfies: args is
absent exactly when args_sections is empty, attrs is absent exactly when
attrs_sections is empty, and raises is absent exactly when raises_sections
is empty. -/
theorem c8_absent_iff_no_sections (value : List Char) :
    ((parseCh value).args = none ↔ (parseCh value).args_sections = []) ∧
      ((parseCh value).attrs = none ↔ (parseCh value).attrs_sections = []) ∧
      ((parseCh value).raises = none ↔ (parseCh value).raises_sections = []) := by
  refine ⟨?_, ?_, ?_⟩ <;>
    simp only [parseCh, Option.map_eq_none'] <;>
    exact getSection_none_iff _ _

/-- C8 witness: the invariant at the concrete input "x". -/
theorem c8_absent_iff_no_sections_witness :
    ((parseCh ("x".toList)).args = none ↔ (parseCh ("x".toList)).args_sections = []) ∧
      ((parseCh ("x".toList)).attrs = none ↔ (parseCh ("x".toList)).attrs_sections = []) ∧
      ((parseCh ("x".toList)).raises = none ↔ (parseCh ("x".toList)).raises_sections = []) :=
  c8_absent_iff_no_sections ("x".toList)

/-- C9: parse applied to "Args:\n    x:\n", "Arguments:\n    x:\n" and
"Parameters:\n    x:\n" yields the same args entry tuple ("x",) in all three
cases, while the headers lists record the literal spellings Args, Arguments
and Parameters respectively. -/
theorem c9_synonym_headers :
    (parseCh ("Args:\n    x:\n".toList)).args = some [("x".toList)] ∧
      (parseCh ("Arguments:\n    x:\n".toList)).args = some [("x".toList)] ∧
      (parseCh ("Parameters:\n    x:\n".toList)).args = some [("x".toList)] ∧
      (parseCh ("Args:\n    x:\n".toList)).args_sections = [("Args".toList)] ∧
      (parseCh ("Arguments:\n    x:\n".toList)).args_sections = [("Arguments".toList)] ∧
      (parseCh ("Parameters:\n    x:\n".toList)).args_sections = [("Parameters".toList)] := by
  decide

/-- C10: recognition is by line prefix, not whole-line match: for any line
built from optional whitespace, a word and a colon, the two patterns match
and capture the word no matter what text follows the colon; concretely, the
two-line docstring body "Args: summary text" / "note: details" produces the
section Args with the sub-entry note. -/
theorem c10_prefix_matching (ws w rest : List Char)
    (hws : ∀ ch ∈ ws, isPySpace ch = true)
    (hw : w ≠ [])
    (hwc : ∀ ch ∈ w, isWordChar ch = true) :
    subSectionMatch (ws ++ w ++ ':' :: rest) = some w ∧
      sectionNameMatch (ws ++ w ++ ':' :: rest) = some w ∧
      getSections [("Args: summary text".toList), ("note: details".toList)] =
        [⟨some ("Args".toList), [("note".toList)]⟩] := by
  cases w with
  | nil => exact absurd rfl hw
  | cons ch w2 =>
    have hch : isWordChar ch = true := hwc ch (List.mem_cons_self ch w2)
    have hchs : isPySpace ch = false := word_not_space ch hch
    have h1 : (ws ++ (ch :: w2) ++ ':' :: rest).dropWhile isPySpace =
        (ch :: w2) ++ ':' :: rest := by
      rw [List.append_assoc, dropWhile_append_all ws ((ch :: w2) ++ ':' :: rest) hws]
      simp [List.dropWhile_cons, hchs]
    have h2 : ((ch :: w2) ++ ':' :: rest).takeWhile isWordChar = ch :: w2 :=
      takeWhile_word (ch :: w2) rest hwc
    have h3 : ((ch :: w2) ++ ':' :: rest).dropWhile isWordChar = ':' :: rest :=
      dropWhile_word (ch :: w2) rest hwc
    refine ⟨?_, ?_, by decide⟩
    · simp only [subSectionMatch, h1, h2, h3]
      simp
    · simp only [sectionNameMatch, h1, h2, h3]
      simp

/-- C10 witness: the theorem applied to the line "  note: details". -/
theorem c10_prefix_matching_witness :
    subSectionMatch (("  ".toList) ++ ("note".toList) ++ ':' :: (" details".toList)) =
        some ("note".toList) ∧
      sectionNameMatch (("  ".toList) ++ ("note".toList) ++ ':' :: (" details".toList)) =
        some ("note".toList) ∧
      getSections [("Args: summary text".toList), ("note: details".toList)] =
        [⟨some ("Args".toList), [("note".toList)]⟩] :=
  c10_prefix_matching ("  ".toList) ("note".toList) (" details".toList)
    (by decide) (by decide) (by decide)

end FDC
